import Mathlib

/-!
Verification of the tuckr dotfile bootstrap utility (src/app/dotfilehandler.py).

The whole program is one Python module: a configparser-based loader that runs
at import time, followed by four action functions (clone_dotfiles,
install_packages, run_scripts, install_from_list).  We embed it shallowly:

* a `Config` is an ordered list of named sections, each an ordered list of
  key/value string pairs (the configparser data model; configparser forbids
  duplicate option keys within a section, and its `__getitem__` raises
  `KeyError` for a missing section);
* external effects (`os.system` invocations and user-visible printed notices)
  are recorded as an ordered trace of `Event`s; the terminal color escape
  codes wrapped around printed notices are presentation-only and are omitted
  from the recorded message text;
* Python exceptions escaping a function are modelled with `Except PyErr`;
  an action that can raise no uncaught exception returns a plain trace;
* the filesystem is an association list from path to file contents; a path
  absent from it makes `open` fail (`FileNotFoundError` style);
* `os.system` returns the spawned command exit status, which the program
  always discards; where a claim is about that discarding, the action takes
  an exit-status oracle and we prove the trace does not depend on it.
-/

namespace Tuckr

/-- Lookup in an ordered association list with string keys (Python dict
indexing: `d[k]`, `k in d`). -/
def assocGet? {α : Type} (l : List (String × α)) (k : String) : Option α :=
  (l.find? (fun p => p.1 == k)).map Prod.snd

/-- One INI section: option keys and string values in insertion order.
configparser rejects duplicate keys within a section, so each key occurs
once. -/
structure IniSection where
  entries : List (String × String)
deriving Repr, DecidableEq

/-- `k in section` / `section[k]` on a configparser section proxy. -/
def IniSection.get? (s : IniSection) (k : String) : Option String :=
  assocGet? s.entries k

/-- Iteration over a configparser section yields its option keys in
insertion order. -/
def IniSection.keys (s : IniSection) : List String :=
  s.entries.map Prod.fst

/-- The parsed configuration: named sections in insertion order.  This is the
process-wide `config` object of dotfilehandler.py. -/
structure Config where
  sections : List (String × IniSection)
deriving Repr, DecidableEq

/-- `config[name]` returns the section, or `none` where Python raises
`KeyError`. -/
def Config.get? (c : Config) (name : String) : Option IniSection :=
  assocGet? c.sections name

/-- The configuration state with zero sections (a fresh ConfigParser). -/
def Config.empty : Config := ⟨[]⟩

/-- Python exceptions that can escape the embedded functions. -/
inductive PyErr
  | keyError
  | fileNotFound
  | parsingError
  | attributeError
deriving Repr, DecidableEq

/-- Observable effects, in program order. -/
inductive Event
  | system (cmd : String)
  | msg (line : String)
deriving Repr, DecidableEq

/-- The commands passed to `os.system` within a trace, in order. -/
def systemCalls : List Event → List String
  | [] => []
  | Event.system c :: rest => c :: systemCalls rest
  | Event.msg _ :: rest => systemCalls rest

/-- The filesystem visible to `open`: path to contents.  A missing path makes
`open` raise. -/
def FS : Type := List (String × String)

/-- Reading the file at `path`: `none` models `FileNotFoundError` (or any
unreadable file). -/
def FS.read? (fs : FS) (path : String) : Option String :=
  assocGet? fs path

/-- Python `s.replace(chr(10), chr(32))` on the character list: every newline
becomes one space, all other characters pass through. -/
def pyReplaceNl : List Char → List Char
  | [] => []
  | c :: cs => (if c = '\n' then ' ' else c) :: pyReplaceNl cs

/-- The newline-collapsing step both install actions apply to list-file
contents: `contents.replace(chr(10), chr(32))`. -/
def collapseNewlines (s : String) : String :=
  ⟨pyReplaceNl s.data⟩

/-- Python substring test `needle in hay`. -/
def strContains (hay needle : String) : Bool :=
  (List.range (hay.data.length + 1)).any
    (fun i => (hay.data.drop i).take needle.data.length == needle.data)

/-- Python `s.split(chr(95))[0]`: the part of `s` before its first
underscore (all of `s` when it has none). -/
def beforeFirstUnderscore (s : String) : String :=
  ⟨s.data.takeWhile (fun c => c ≠ '_')⟩

/-!
## Config loader (module top level, dotfilehandler.py lines 6-13)

`configparser.ConfigParser.read` silently ignores a file it cannot open and
returns normally, so a missing config file raises nothing; a file that exists
but does not parse raises a parsing error (never `KeyError`).  The module
wraps the working-directory read in a bare `except:`; the handler then calls
`Path.expanduser` on a plain `str`, which raises `AttributeError` before the
home-directory file is ever read, and the outer handler catches only
`KeyError`, so that error escapes.  The `print` of
"Error: No config file was found" is reachable only through the outer
`except KeyError:` and `config.read` never raises `KeyError`.
-/

/-- What `config.read(path)` finds at one search location. -/
inductive ReadResult
  | absent
  | malformed
  | parsed (c : Config)
deriving Repr, DecidableEq

/-- `config.read(path)` starting from an empty parser: a missing file is
ignored, a malformed file raises a parsing error, a well-formed file
populates the parser. -/
def configRead : ReadResult → Except PyErr Config
  | ReadResult.absent => Except.ok Config.empty
  | ReadResult.malformed => Except.error PyErr.parsingError
  | ReadResult.parsed c => Except.ok c

/-- The module-level load: try `config.read` on `./tuckr.conf`; on any
exception fall back, but the fallback line itself calls
`Path.expanduser` with a `str` receiver and raises `AttributeError`, which
the outer `except KeyError:` does not catch.  The home-directory location
(`homeFile`) is therefore never consulted.  Returns the configuration and
the printed notices, or the escaping exception. -/
def loadConfig (cwdFile homeFile : ReadResult) : Except PyErr (Config × List Event) :=
  match configRead cwdFile with
  | Except.ok c => Except.ok (c, [])
  | Except.error _ =>
    -- bare `except:` entered; `Path.expanduser(str)` raises AttributeError,
    -- `homeFile` is unread, and the outer `except KeyError:` does not match
    Except.error PyErr.attributeError

/-!
## clone_dotfiles (lines 16-30)
-/

/-- The notice printed by the `except KeyError:` handler of
`clone_dotfiles`. -/
def cloneErrorMsg : String :=
  "Error: No dotfile repo was specified. Make sure you set it up in your tuckr.ini file."

/-- `clone_dotfiles()`: with `dotfiles_repo` present clone it into
`dotfiles_dest` when set, else into `$HOME/dotfiles`; with no
`dotfiles_repo` run `clone_dotfiles_cmd` verbatim.  Every `KeyError`
(missing GENERAL section or missing `clone_dotfiles_cmd`) is caught and
turns into one printed notice, so no exception escapes. -/
def clone_dotfiles (config : Config) : List Event :=
  match config.get? "GENERAL" with
  | none => [Event.msg cloneErrorMsg]
  | some general =>
    match general.get? "dotfiles_repo" with
    | some repo =>
      match general.get? "dotfiles_dest" with
      | some dest => [Event.system ("git clone " ++ repo ++ " " ++ dest)]
      | none => [Event.system ("git clone " ++ repo ++ " $HOME/dotfiles")]
    | none =>
      match general.get? "clone_dotfiles_cmd" with
      | some cmdLine => [Event.system cmdLine]
      | none => [Event.msg cloneErrorMsg]

/-!
## install_packages (lines 32-40)
-/

/-- `install_packages()`: `config[PACKAGES]` raises `KeyError` when the
section is absent (uncaught); with the section present but no
`pkg_install_cmd` the body is skipped entirely; otherwise
`config[PACKAGES][pkg_list]` raises `KeyError` when that key is absent
(uncaught), `open` raises when the file is unreadable (uncaught), and on
success one command `pkg_install_cmd ++ space ++ collapsed contents` is
invoked. -/
def install_packages (config : Config) (fs : FS) : Except PyErr (List Event) :=
  match config.get? "PACKAGES" with
  | none => Except.error PyErr.keyError
  | some packages =>
    match packages.get? "pkg_install_cmd" with
    | none => Except.ok []
    | some cmdLine =>
      match packages.get? "pkg_list" with
      | none => Except.error PyErr.keyError
      | some path =>
        match fs.read? path with
        | none => Except.error PyErr.fileNotFound
        | some contents =>
          Except.ok [Event.system (cmdLine ++ " " ++ collapseNewlines contents)]

/-!
## run_scripts (lines 42-48)
-/

/-- The body of the `for script in config[SCRIPTS]:` loop, over the remaining
keys: print the status notice, then `os.system` the command (its exit status,
`exitStatus cmdLine`, is discarded). -/
def runScriptsLoop (scripts : IniSection) (exitStatus : String → Int) :
    List String → List Event
  | [] => []
  | name :: rest =>
    let cmdLine := "sh -c " ++ ((scripts.get? name).getD "")
    let _ := exitStatus cmdLine
    Event.msg ("\nrunning " ++ name) :: Event.system cmdLine ::
      runScriptsLoop scripts exitStatus rest

/-- `run_scripts()`: `config[SCRIPTS]` raises `KeyError` when the section is
absent (uncaught); otherwise every entry, in insertion order, gets one
notice and one `sh -c` invocation, with no inspection of exit statuses. -/
def run_scripts (config : Config) (exitStatus : String → Int) :
    Except PyErr (List Event) :=
  match config.get? "SCRIPTS" with
  | none => Except.error PyErr.keyError
  | some scripts => Except.ok (runScriptsLoop scripts exitStatus scripts.keys)

/-!
## install_from_list (lines 50-68)
-/

/-- The fixed ecosystem table `install_cmd` of `install_from_list`. -/
def install_cmd : List (String × String) :=
  [("pip", "install --user"), ("npm", "install -g"), ("yarn", "global add")]

/-- One iteration of the `for list_ in config[PACKAGES]:` loop.  Keys without
the `_list` substring are passed over.  Inside the `try:` block the list file
is opened first: an unreadable file raises `FileNotFoundError`, which the
`except KeyError:` clause does NOT catch, so it escapes.  Only the
`install_cmd[cmd]` lookup can raise `KeyError`, which is caught and
ignored (`pass`). -/
def processListKey (packages : IniSection) (fs : FS) (key : String) :
    Except PyErr (List Event) :=
  if strContains key "_list" then
    let cmd := beforeFirstUnderscore key
    match packages.get? key with
    | none => Except.ok []      -- KeyError from the section lookup: caught, pass
    | some path =>
      match fs.read? path with
      | none => Except.error PyErr.fileNotFound  -- open failed: NOT caught
      | some contents =>
        match assocGet? install_cmd cmd with
        | none => Except.ok []  -- KeyError from install_cmd[cmd]: caught, pass
        | some sub =>
          Except.ok [Event.system (cmd ++ " " ++ sub ++ " " ++ collapseNewlines contents)]
  else Except.ok []

/-- The loop of `install_from_list` over the section keys: each iteration
appends its events; an escaping exception aborts the rest of the loop. -/
def installFromListLoop (packages : IniSection) (fs : FS) :
    List String → Except PyErr (List Event)
  | [] => Except.ok []
  | key :: rest =>
    match processListKey packages fs key with
    | Except.error e => Except.error e
    | Except.ok evs =>
      match installFromListLoop packages fs rest with
      | Except.error e => Except.error e
      | Except.ok evs2 => Except.ok (evs ++ evs2)

/-- `install_from_list()`: `config[PACKAGES]` raises `KeyError` when the
section is absent (uncaught, the loop header is outside the `try:`);
otherwise iterate all section keys in insertion order through
`processListKey`. -/
def install_from_list (config : Config) (fs : FS) : Except PyErr (List Event) :=
  match config.get? "PACKAGES" with
  | none => Except.error PyErr.keyError
  | some packages => installFromListLoop packages fs packages.keys

/-!
## Helper lemmas
-/

/-- Replacing newlines is a character-by-character map. -/
theorem pyReplaceNl_eq_map : ∀ l : List Char,
    pyReplaceNl l = l.map (fun c => if c = '\n' then ' ' else c)
  | [] => rfl
  | c :: cs => by simp [pyReplaceNl, pyReplaceNl_eq_map cs]

/-- The commands invoked by the script loop are, in order, one `sh -c` call
per key. -/
theorem systemCalls_runScriptsLoop (scripts : IniSection) (st : String → Int) :
    ∀ keys : List String,
      systemCalls (runScriptsLoop scripts st keys) =
        keys.map (fun name => "sh -c " ++ ((scripts.get? name).getD ""))
  | [] => rfl
  | _ :: rest => by
    simp [runScriptsLoop, systemCalls, systemCalls_runScriptsLoop scripts st rest]

/-- The script loop trace does not depend on the exit statuses returned by
`os.system`. -/
theorem runScriptsLoop_oracle (scripts : IniSection) (st st2 : String → Int) :
    ∀ keys : List String,
      runScriptsLoop scripts st keys = runScriptsLoop scripts st2 keys
  | [] => rfl
  | _ :: rest => by
    simp [runScriptsLoop, runScriptsLoop_oracle scripts st st2 rest]

/-- The only exception that can escape one iteration of the
`install_from_list` loop is the uncaught file-open failure. -/
theorem processListKey_error (packages : IniSection) (fs : FS) (key : String)
    (e : PyErr) :
    processListKey packages fs key = Except.error e → e = PyErr.fileNotFound := by
  intro h
  by_cases hl : strContains key "_list" = true
  · cases hk : packages.get? key with
    | none => simp [processListKey, hl, hk] at h
    | some path =>
      cases hf : fs.read? path with
      | none =>
        simp [processListKey, hl, hk, hf] at h
        exact h.symm
      | some contents =>
        cases hi : assocGet? install_cmd (beforeFirstUnderscore key) with
        | none => simp [processListKey, hl, hk, hf, hi] at h
        | some sub => simp [processListKey, hl, hk, hf, hi] at h
  · simp [processListKey, hl] at h

/-- If any `_list` key of the section names an unreadable file, the
`install_from_list` loop ends in the escaping file error. -/
theorem installFromListLoop_abort (packages : IniSection) (fs : FS) :
    ∀ keys : List String,
      (∃ k ∈ keys, strContains k "_list" = true ∧
        ∃ path, packages.get? k = some path ∧ fs.read? path = none) →
      installFromListLoop packages fs keys = Except.error PyErr.fileNotFound := by
  intro keys
  induction keys with
  | nil =>
    rintro ⟨k, hk, -⟩
    exact absurd hk (List.not_mem_nil k)
  | cons key rest ih =>
    rintro ⟨k, hk, hsub, path, hget, hread⟩
    rcases List.mem_cons.mp hk with heq | hmem
    · subst heq
      have hfail : processListKey packages fs k = Except.error PyErr.fileNotFound := by
        simp [processListKey, hsub, hget, hread]
      simp [installFromListLoop, hfail]
    · have hrest := ih ⟨k, hmem, hsub, path, hget, hread⟩
      cases hpk : processListKey packages fs key with
      | error e =>
        have he := processListKey_error packages fs key e hpk
        subst he
        simp [installFromListLoop, hpk]
      | ok evs => simp [installFromListLoop, hpk, hrest]

/-!
## Claim theorems
-/

/-- Claim C1: with the GENERAL section present, if dotfiles_repo is set the
clone action invokes exactly one git clone command whose source is the
verbatim repo value and whose destination is the verbatim dotfiles_dest value
when that key is set, and otherwise the literal $HOME/dotfiles, the shell
spelling of the user home directory joined with dotfiles; if dotfiles_repo is
absent but clone_dotfiles_cmd is set, that raw command string is the single
invocation, verbatim. -/
theorem clone_dotfiles_spec (config : Config) (general : IniSection)
    (hgen : config.get? "GENERAL" = some general) :
    (∀ repo dest, general.get? "dotfiles_repo" = some repo →
      general.get? "dotfiles_dest" = some dest →
      clone_dotfiles config = [Event.system ("git clone " ++ repo ++ " " ++ dest)]) ∧
    (∀ repo, general.get? "dotfiles_repo" = some repo →
      general.get? "dotfiles_dest" = none →
      clone_dotfiles config = [Event.system ("git clone " ++ repo ++ " $HOME/dotfiles")]) ∧
    (∀ cmdLine, general.get? "dotfiles_repo" = none →
      general.get? "clone_dotfiles_cmd" = some cmdLine →
      clone_dotfiles config = [Event.system cmdLine]) := by
  refine ⟨?_, ?_, ?_⟩
  · intro repo dest hr hd
    simp [clone_dotfiles, hgen, hr, hd]
  · intro repo hr hd
    simp [clone_dotfiles, hgen, hr, hd]
  · intro cmdLine hr hc
    simp [clone_dotfiles, hgen, hr, hc]

/-- Concrete run of clone_dotfiles_spec: repo and destination both set. -/
theorem clone_dotfiles_spec_witness :
    clone_dotfiles ⟨[("GENERAL", ⟨[("dotfiles_repo", "R"), ("dotfiles_dest", "D")]⟩)]⟩ =
      [Event.system "git clone R D"] :=
  (clone_dotfiles_spec
    ⟨[("GENERAL", ⟨[("dotfiles_repo", "R"), ("dotfiles_dest", "D")]⟩)]⟩
    ⟨[("dotfiles_repo", "R"), ("dotfiles_dest", "D")]⟩ rfl).1 "R" "D" rfl rfl

/-- Claim C8: when neither dotfiles_repo nor clone_dotfiles_cmd is present,
including when the GENERAL section itself is absent, the clone action spawns
no process and its whole trace is exactly one error notice. -/
theorem clone_dotfiles_no_repo (config : Config)
    (h : config.get? "GENERAL" = none ∨
      ∃ general, config.get? "GENERAL" = some general ∧
        general.get? "dotfiles_repo" = none ∧
        general.get? "clone_dotfiles_cmd" = none) :
    clone_dotfiles config = [Event.msg cloneErrorMsg] := by
  rcases h with h | ⟨general, hgen, hr, hc⟩
  · simp [clone_dotfiles, h]
  · simp [clone_dotfiles, hgen, hr, hc]

/-- Concrete run of clone_dotfiles_no_repo: empty configuration. -/
theorem clone_dotfiles_no_repo_witness :
    clone_dotfiles Config.empty = [Event.msg cloneErrorMsg] :=
  clone_dotfiles_no_repo Config.empty (Or.inl rfl)

/-- Claim C6: with the PACKAGES section present, the native install action
raises an exception exactly when pkg_install_cmd is present and the pkg_list
file cannot be read (either the pkg_list key is absent, a KeyError, or the
named file is unreadable, a FileNotFoundError); when pkg_install_cmd is
absent it is a silent no-op with an empty trace and no error. -/
theorem install_packages_spec (config : Config) (packages : IniSection) (fs : FS)
    (hp : config.get? "PACKAGES" = some packages) :
    ((∃ e, install_packages config fs = Except.error e) ↔
      (packages.get? "pkg_install_cmd").isSome = true ∧
        (packages.get? "pkg_list" = none ∨
          ∃ path, packages.get? "pkg_list" = some path ∧ fs.read? path = none)) ∧
    (packages.get? "pkg_install_cmd" = none →
      install_packages config fs = Except.ok []) := by
  constructor
  · cases hc : packages.get? "pkg_install_cmd" with
    | none => simp [install_packages, hp, hc]
    | some cmdLine =>
      cases hl : packages.get? "pkg_list" with
      | none => simp [install_packages, hp, hc, hl]
      | some path =>
        cases hf : fs.read? path with
        | none => simp [install_packages, hp, hc, hl, hf]
        | some contents => simp [install_packages, hp, hc, hl, hf]
  · intro hc
    simp [install_packages, hp, hc]

/-- Concrete run of install_packages_spec: section present, no
pkg_install_cmd, empty trace. -/
theorem install_packages_spec_witness :
    install_packages ⟨[("PACKAGES", ⟨[]⟩)]⟩ [] = Except.ok [] :=
  (install_packages_spec ⟨[("PACKAGES", ⟨[]⟩)]⟩ ⟨[]⟩ [] rfl).2 rfl

/-- Claim C10: with no PACKAGES section at all, both install actions raise
KeyError; the leniency for missing keys never extends to the missing
section. -/
theorem install_actions_keyError_no_packages (config : Config) (fs : FS)
    (h : config.get? "PACKAGES" = none) :
    install_packages config fs = Except.error PyErr.keyError ∧
    install_from_list config fs = Except.error PyErr.keyError := by
  simp [install_packages, install_from_list, h]

/-- Concrete run of install_actions_keyError_no_packages: empty
configuration. -/
theorem install_actions_keyError_no_packages_witness :
    install_packages Config.empty [] = Except.error PyErr.keyError ∧
    install_from_list Config.empty [] = Except.error PyErr.keyError :=
  install_actions_keyError_no_packages Config.empty [] rfl

/-- Counterexample to claim C3 as stated: on a configuration with no SCRIPTS
section the script runner does not iterate zero times without error; the
section lookup itself raises an uncaught KeyError. -/
theorem run_scripts_missing_section_cex :
    run_scripts Config.empty (fun _ => 0) = Except.error PyErr.keyError := rfl

/-- Claim C3 amended: on every configuration with no SCRIPTS section the
script runner raises KeyError from the section lookup, before iterating and
before invoking any external process. -/
theorem run_scripts_missing_section (config : Config) (exitStatus : String → Int)
    (h : config.get? "SCRIPTS" = none) :
    run_scripts config exitStatus = Except.error PyErr.keyError := by
  simp [run_scripts, h]

/-- Concrete run of run_scripts_missing_section. -/
theorem run_scripts_missing_section_witness :
    run_scripts ⟨[("GENERAL", ⟨[]⟩)]⟩ (fun _ => 1) = Except.error PyErr.keyError :=
  run_scripts_missing_section ⟨[("GENERAL", ⟨[]⟩)]⟩ (fun _ => 1) rfl

/-- Claim C5: with the SCRIPTS section present the runner succeeds and the
commands it invokes are exactly one `sh -c` call per entry, in insertion
order (first entry first), and the whole trace is the same under every
exit-status oracle: a failing script never halts the iteration because no
exit status is ever inspected. -/
theorem run_scripts_sequential (config : Config) (scripts : IniSection)
    (st st2 : String → Int) (h : config.get? "SCRIPTS" = some scripts) :
    (∃ tr, run_scripts config st = Except.ok tr ∧
      systemCalls tr =
        scripts.keys.map (fun name => "sh -c " ++ ((scripts.get? name).getD ""))) ∧
    run_scripts config st = run_scripts config st2 := by
  refine ⟨⟨runScriptsLoop scripts st scripts.keys, ?_,
    systemCalls_runScriptsLoop scripts st scripts.keys⟩, ?_⟩
  · simp [run_scripts, h]
  · simp [run_scripts, h, runScriptsLoop_oracle scripts st st2 scripts.keys]

/-- Concrete run of run_scripts_sequential: three scripts, two distinct
exit-status oracles. -/
theorem run_scripts_sequential_witness :
    (∃ tr,
      run_scripts ⟨[("SCRIPTS",
          ⟨[("s1", "echo one"), ("s2", "false"), ("s3", "echo three")]⟩)]⟩
        (fun _ => 0) = Except.ok tr ∧
      systemCalls tr = ["sh -c echo one", "sh -c false", "sh -c echo three"]) ∧
    run_scripts ⟨[("SCRIPTS",
        ⟨[("s1", "echo one"), ("s2", "false"), ("s3", "echo three")]⟩)]⟩
      (fun _ => 0) =
    run_scripts ⟨[("SCRIPTS",
        ⟨[("s1", "echo one"), ("s2", "false"), ("s3", "echo three")]⟩)]⟩
      (fun _ => 1) :=
  run_scripts_sequential
    ⟨[("SCRIPTS", ⟨[("s1", "echo one"), ("s2", "false"), ("s3", "echo three")]⟩)]⟩
    ⟨[("s1", "echo one"), ("s2", "false"), ("s3", "echo three")]⟩
    (fun _ => 0) (fun _ => 1) rfl

/-- Counterexample to claim C2 as stated: the first `_list` key names an
unreadable file, and rather than skipping that key and continuing with
npm_list (whose file exists and whose command would be invoked), the whole
action aborts with the uncaught file error and produces no trace at all: the
`except KeyError` clause does not catch FileNotFoundError. -/
theorem install_from_list_abort_cex :
    install_from_list
        ⟨[("PACKAGES", ⟨[("pip_list", "a.txt"), ("npm_list", "b.txt")]⟩)]⟩
        [("b.txt", "z\n")] =
      Except.error PyErr.fileNotFound := rfl

/-- Claim C2 amended: with the PACKAGES section present, if any key
containing `_list` names a file the read of which fails, the ecosystem
install action does not skip it: the file error escapes and aborts the whole
action (only the KeyError from an unknown tool name in the lookup table is
caught and skipped). -/
theorem install_from_list_read_failure_aborts (config : Config)
    (packages : IniSection) (fs : FS)
    (hp : config.get? "PACKAGES" = some packages)
    (hfail : ∃ k ∈ packages.keys, strContains k "_list" = true ∧
      ∃ path, packages.get? k = some path ∧ fs.read? path = none) :
    install_from_list config fs = Except.error PyErr.fileNotFound := by
  simp [install_from_list, hp, installFromListLoop_abort packages fs packages.keys hfail]

/-- Concrete run of install_from_list_read_failure_aborts. -/
theorem install_from_list_read_failure_aborts_witness :
    install_from_list ⟨[("PACKAGES", ⟨[("yarn_list", "y.txt")]⟩)]⟩ [] =
      Except.error PyErr.fileNotFound :=
  install_from_list_read_failure_aborts _ _ _ rfl
    ⟨"yarn_list", by decide, by decide, "y.txt", rfl, rfl⟩

/-- Counterexample to claim C7 as stated: in the claimed scenario (with
b.txt readable, the benign case) the single invoked command string is
"pip install --user x y " with the trailing space produced by newline
collapsing, which is not the claimed string "pip install --user x y". -/
theorem install_from_list_pip_cex :
    install_from_list
        ⟨[("PACKAGES", ⟨[("pip_list", "a.txt"), ("foo_list", "b.txt")]⟩)]⟩
        [("a.txt", "x\ny\n"), ("b.txt", "z\n")] =
      Except.ok [Event.system "pip install --user x y "] ∧
    ("pip install --user x y " : String) ≠ "pip install --user x y" :=
  ⟨rfl, by decide⟩

/-- Claim C7 amended: for a PACKAGES section with pip_list=a.txt and
foo_list=b.txt, where a.txt reads "x\ny\n" and b.txt is readable with any
contents, the ecosystem action invokes exactly the single command
"pip install --user x y " (trailing space included) and nothing for
foo_list: foo is not in the fixed tool table and its lookup KeyError is
caught and skipped silently. -/
theorem install_from_list_pip_foo (bContents : String) :
    install_from_list
        ⟨[("PACKAGES", ⟨[("pip_list", "a.txt"), ("foo_list", "b.txt")]⟩)]⟩
        [("a.txt", "x\ny\n"), ("b.txt", bContents)] =
      Except.ok [Event.system "pip install --user x y "] := rfl

/-- Claim C9: the newline-collapsing step used by both install actions
replaces every newline character by a single space and changes nothing else,
so "a\nb\n" collapses to exactly "a b " with the trailing space included; as
applied by the native install action, a list file reading "a\nb\n" yields
the command "pacman -S a b ". -/
theorem collapseNewlines_spec :
    collapseNewlines "a\nb\n" = "a b " ∧
    (∀ s : String,
      collapseNewlines s = ⟨s.data.map (fun c => if c = '\n' then ' ' else c)⟩) ∧
    install_packages
        ⟨[("PACKAGES",
          ⟨[("pkg_install_cmd", "pacman -S"), ("pkg_list", "pkgs.txt")]⟩)]⟩
        [("pkgs.txt", "a\nb\n")] =
      Except.ok [Event.system "pacman -S a b "] := by
  refine ⟨rfl, ?_, rfl⟩
  intro s
  simp [collapseNewlines, pyReplaceNl_eq_map]

/-- Claim C4 is refuted by the code: with no config file at either search
location, `config.read` raises nothing (it silently ignores missing files),
so the loader prints no notice at all — the handler holding the notice
"Error: No config file was found" fires only on KeyError, which never
occurs — though the configuration is indeed left empty and valid; and with a
malformed ./tuckr.conf the fallback line calls Path.expanduser on a str and
the loader crashes with an uncaught AttributeError before the home location
is ever consulted. -/
theorem loadConfig_c4 :
    loadConfig ReadResult.absent ReadResult.absent =
      Except.ok (Config.empty, []) ∧
    (∀ homeFile, loadConfig ReadResult.malformed homeFile =
      Except.error PyErr.attributeError) :=
  ⟨rfl, fun _ => rfl⟩

end Tuckr
